import Mathlib

/-!
Shallow embedding of the inference-bridge request forwarder
(src/agent-cvm/inference-bridge: config.py, inference.py, main.py).

Python `str | None` values are embedded as `Option String`; Python
truthiness of such values (used by `x or default` and `if x:`) is made
explicit by `pyStrOr` / `pyOptStr` / `pyListTruthy`.  Machine effects are
made explicit: every upstream HTTP exchange is driven by an environment
argument giving the upstream response, and each operation returns a trace
recording the requests actually sent, the backoff sleeps performed, and
the final outcome (`Except` models raised exceptions).
-/

namespace Bridge

/-- Snapshot of the mutable module-level backend configuration of
config.py (`LLM_BACKEND_URL`, `LLM_API_KEY`, `MODEL_NAME`). -/
structure Config where
  LLM_BACKEND_URL : String
  LLM_API_KEY : String
  MODEL_NAME : String
  deriving DecidableEq

/-- Python `s or d` for `s : str | None`: falls back to `d` exactly when
`s` is `None` or the empty string (both falsy). -/
def pyStrOr (s : Option String) (d : String) : String :=
  match s with
  | none => d
  | some v => if v = "" then d else v

/-- Python truthiness of an optional string, keeping the value: `some v`
only when `v` is present and non-empty. -/
def pyOptStr (s : Option String) : Option String :=
  match s with
  | none => none
  | some v => if v = "" then none else some v

/-- Python truthiness of `l : list | None`: true exactly when `l` is a
present, non-empty list. -/
def pyListTruthy {α : Type} (t : Option (List α)) : Bool :=
  match t with
  | none => false
  | some l => !l.isEmpty

instance {α β : Type} [DecidableEq α] [DecidableEq β] :
    DecidableEq (Except α β) := fun a b =>
  match a, b with
  | Except.ok x, Except.ok y => decidable_of_iff (x = y) (by simp)
  | Except.error x, Except.error y => decidable_of_iff (x = y) (by simp)
  | Except.ok _, Except.error _ => isFalse (by simp)
  | Except.error _, Except.ok _ => isFalse (by simp)

/-- Headers built by inference.py `_headers`: always `Content-Type`, plus
`Authorization` when the API key is truthy (non-empty). -/
def headersOf (cfg : Config) : List (String × String) :=
  if cfg.LLM_API_KEY = "" then
    [ ("Content-Type", "application/json") ]
  else
    [ ("Content-Type", "application/json"),
      ("Authorization", "Bearer " ++ cfg.LLM_API_KEY) ]

/-- An upstream HTTP response: status code plus decoded body (the body
type `β` is opaque to the bridge). -/
structure UpstreamResponse (β : Type) where
  status_code : Nat
  body : β
  deriving DecidableEq

/-- httpx `response.raise_for_status` does not raise exactly for 2xx. -/
def is_success (status : Nat) : Bool :=
  decide (200 ≤ status) && decide (status < 300)

/-- The JSON payload built by inference.py for `/chat/completions`
(fields of the dict; `tools` / `tool_choice` are `none` when the keys are
absent from the dict).  Message entries (`μ`) and tool entries (`τ`) are
forwarded verbatim, so they stay type parameters. -/
structure ChatPayload (μ τ : Type) where
  model : String
  messages : List μ
  temperature : Rat
  max_tokens : Nat
  stream : Bool
  tools : Option (List τ)
  tool_choice : Option String
  deriving DecidableEq

/-- Payload construction of inference.py `chat_completion` lines 67-77:
`model` is `model or config.MODEL_NAME`; `tools` and `tool_choice` are
added only under `if tools:`, with `tool_choice or "auto"`. -/
def buildChatPayload {μ τ : Type} (cfg : Config) (messages : List μ)
    (model : Option String) (temperature : Rat) (max_tokens : Nat)
    (stream : Bool) (tools : Option (List τ)) (tool_choice : Option String) :
    ChatPayload μ τ :=
  if pyListTruthy tools then
    ⟨pyStrOr model cfg.MODEL_NAME, messages, temperature, max_tokens, stream,
      tools, some (pyStrOr tool_choice "auto")⟩
  else
    ⟨pyStrOr model cfg.MODEL_NAME, messages, temperature, max_tokens, stream,
      none, none⟩

/-- One POST actually issued to the upstream: URL, headers and JSON body
as sent. -/
structure SentRequest (μ τ : Type) where
  url : String
  headers : List (String × String)
  payload : ChatPayload μ τ
  deriving DecidableEq

/-- The request inference.py sends on one attempt of the retry loop: URL
and headers are computed from the config module state at that attempt. -/
def mkChatRequest {μ τ : Type} (cfg : Config) (payload : ChatPayload μ τ) :
    SentRequest μ τ :=
  ⟨cfg.LLM_BACKEND_URL ++ "/chat/completions", headersOf cfg, payload⟩

/-- Trace of one `chat_completion` call: the requests sent (in order),
the `asyncio.sleep` backoff durations performed (in seconds, in order),
and the outcome — `Except.error s` models the `httpx.HTTPStatusError`
raised by `raise_for_status` on status `s`. -/
structure ChatTrace (μ τ β : Type) where
  sent : List (SentRequest μ τ)
  sleeps : List Rat
  result : Except Nat β
  deriving DecidableEq

/-- inference.py `max_retries = 2`. -/
def max_retries : Nat := 2

/-- Backoff duration `0.5 * (attempt + 1)` seconds (exact in binary
floating point for the attempts that occur, so `Rat` is faithful). -/
def backoff (attempt : Nat) : Rat :=
  (1 / 2 : Rat) * ((attempt : Rat) + 1)

/-- The retry loop of inference.py `chat_completion` lines 86-110:
`for attempt in range(max_retries + 1)`.  `cfgAt i` is the state of the
config module's globals when attempt `i` evaluates the arguments of
`client.post` (the loop re-reads `config.LLM_BACKEND_URL` and calls
`_headers()` on every attempt; the awaited post and sleep between
attempts are suspension points at which those globals can be mutated).
`upstream i` is the response the backend returns to attempt `i`.
On status 400 with attempts remaining it sleeps and retries; otherwise
`raise_for_status` either passes (2xx: return decoded body) or raises. -/
def chatCompletionAux {μ τ β : Type} (cfgAt : Nat → Config)
    (payload : ChatPayload μ τ) (upstream : Nat → UpstreamResponse β) :
    Nat → Nat → ChatTrace μ τ β
  | _, 0 => ⟨[], [], Except.error 0⟩
  | attempt, fuel + 1 =>
    let req := mkChatRequest (cfgAt attempt) payload
    let resp := upstream attempt
    if resp.status_code = 400 ∧ attempt < max_retries then
      let rest := chatCompletionAux cfgAt payload upstream (attempt + 1) fuel
      ⟨req :: rest.sent, backoff attempt :: rest.sleeps, rest.result⟩
    else if is_success resp.status_code then
      ⟨[ req ], [], Except.ok resp.body⟩
    else
      ⟨[ req ], [], Except.error resp.status_code⟩

/-- inference.py `chat_completion`: builds the payload once (reading
`config.MODEL_NAME` at call start, i.e. from `cfgAt 0`) and runs the
retry loop over the three allowed attempts. -/
def chat_completion {μ τ β : Type} (cfgAt : Nat → Config)
    (messages : List μ) (model : Option String) (temperature : Rat)
    (max_tokens : Nat) (stream : Bool) (tools : Option (List τ))
    (tool_choice : Option String) (upstream : Nat → UpstreamResponse β) :
    ChatTrace μ τ β :=
  chatCompletionAux cfgAt
    (buildChatPayload (cfgAt 0) messages model temperature max_tokens stream
      tools tool_choice)
    upstream 0 (max_retries + 1)

/-! Streaming (inference.py `stream_chat_completion`, main.py
`_stream_response`). -/

/-- What the upstream produces for one streaming call: the response
status, the body lines received in order, and whether the connection
closed normally (`clean_close = true`) or errored after the last
received line. -/
structure StreamSource where
  status_code : Nat
  lines : List String
  clean_close : Bool
  deriving DecidableEq

/-- Per-line translation of inference.py lines 175-177: a line starting
with the literal prefix `"data: "` yields its remainder `line[6:]`; any
other line yields nothing.  Python `str` operations are by code point,
so they are modelled on the character list of the line. -/
def stripData (line : String) : Option String :=
  if line.toList.take 6 = "data: ".toList then some ⟨line.toList.drop 6⟩
  else none

/-- Payload built by inference.py `stream_chat_completion` lines 159-165:
same model defaulting, `stream` fixed to true, and no `tools` or
`tool_choice` keys at all. -/
def buildStreamPayload {μ τ : Type} (cfg : Config) (messages : List μ)
    (model : Option String) (temperature : Rat) (max_tokens : Nat) :
    ChatPayload μ τ :=
  ⟨pyStrOr model cfg.MODEL_NAME, messages, temperature, max_tokens, true,
    none, none⟩

/-- Trace of one `stream_chat_completion` call: the single request sent,
the chunks the generator yielded in order, and whether it finished
without raising (`ok = false` both for a non-2xx status, where
`raise_for_status` raises before any yield, and for a connection error
mid-stream, which raises out of the line iterator). -/
structure StreamTrace (μ τ : Type) where
  request : SentRequest μ τ
  emitted : List String
  ok : Bool
  deriving DecidableEq

/-- inference.py `stream_chat_completion` lines 152-177. -/
def stream_chat_completion {μ τ : Type} (cfg : Config) (messages : List μ)
    (model : Option String) (temperature : Rat) (max_tokens : Nat)
    (src : StreamSource) : StreamTrace μ τ :=
  let payload : ChatPayload μ τ :=
    buildStreamPayload cfg messages model temperature max_tokens
  let req : SentRequest μ τ :=
    ⟨cfg.LLM_BACKEND_URL ++ "/chat/completions", headersOf cfg, payload⟩
  if is_success src.status_code then
    ⟨req, src.lines.filterMap stripData, src.clean_close⟩
  else
    ⟨req, [], false⟩

/-- SSE framing of main.py `_stream_response`: each chunk is emitted as
one event `data: <chunk>\n\n`. -/
def wrapEvent (chunk : String) : String :=
  "data: " ++ chunk ++ "\n\n"

/-- What the caller of the streaming endpoint observes: the event lines
actually delivered, and whether the stream completed normally (a
generator exception aborts the streaming response mid-body). -/
structure StreamOutput where
  events : List String
  ok : Bool
  deriving DecidableEq

/-- main.py `_stream_response` lines 171-174: wraps every chunk of
`stream_chat_completion`, then yields the synthetic terminal
`data: [DONE]` event — which is reached only if the inner generator was
exhausted without raising; if it raised, the events yielded so far were
already delivered and the response is aborted. -/
def stream_response {μ τ : Type} (t : StreamTrace μ τ) : StreamOutput :=
  if t.ok then
    ⟨t.emitted.map wrapEvent ++ [ wrapEvent "[DONE]" ], true⟩
  else
    ⟨t.emitted.map wrapEvent, false⟩

/-! Gateway request shapes and payload dispatch (main.py). -/

/-- main.py `ChatCompletionRequest` (message and tool entries kept
parametric — they are forwarded verbatim). -/
structure ChatCompletionRequest (μ τ : Type) where
  messages : List μ
  model : Option String
  temperature : Rat
  max_tokens : Nat
  stream : Bool
  tools : Option (List τ)
  tool_choice : Option String
  deriving DecidableEq

/-- main.py `create_chat_completion` lines 147-149: `tools` is passed on
only under `if request.tools:`, i.e. when present and non-empty. -/
def mainTools {τ : Type} (tools : Option (List τ)) : Option (List τ) :=
  if pyListTruthy tools then tools else none

/-- The upstream JSON payload produced for one gateway chat-completion
request: the streaming branch of main.py `create_chat_completion`
(lines 152-156) forwards only messages, model, temperature and
max_tokens to `stream_chat_completion`; the non-streaming branch
(lines 158-165) forwards tools and tool_choice to `chat_completion`. -/
def create_chat_completion_payload {μ τ : Type} (cfg : Config)
    (req : ChatCompletionRequest μ τ) : ChatPayload μ τ :=
  if req.stream then
    buildStreamPayload cfg req.messages req.model req.temperature
      req.max_tokens
  else
    buildChatPayload cfg req.messages req.model req.temperature
      req.max_tokens false (mainTools req.tools) req.tool_choice

/-! Runtime reconfiguration (main.py `update_config`). -/

/-- main.py `InternalConfigUpdate`. -/
structure InternalConfigUpdate where
  llm_api_key : Option String
  llm_backend_url : Option String
  model_name : Option String
  deriving DecidableEq

/-- The origin check of main.py line 109: the caller's host must be one
of the three literal loopback designators. -/
def loopbackAllowed (client_host : Option String) : Prop :=
  client_host = some "127.0.0.1" ∨ client_host = some "::1" ∨
    client_host = some "localhost"

instance (h : Option String) : Decidable (loopbackAllowed h) := by
  unfold loopbackAllowed
  infer_instance

/-- main.py `update_config` lines 100-123.  Returns the configuration
after the call together with the HTTP outcome: `Except.error 403` for a
rejected origin (raised before any field of the body is inspected),
`Except.ok updated` with the list of updated field names otherwise. -/
def update_config (client_host : Option String)
    (body : InternalConfigUpdate) (cfg : Config) :
    Config × Except Nat (List String) :=
  if loopbackAllowed client_host then
    let keyStep : String × List String :=
      match body.llm_api_key with
      | some v => (v, [ "LLM_API_KEY" ])
      | none => (cfg.LLM_API_KEY, [])
    let urlStep : String × List String :=
      match body.llm_backend_url with
      | some v => (v, [ "LLM_BACKEND_URL" ])
      | none => (cfg.LLM_BACKEND_URL, [])
    let nameStep : String × List String :=
      match body.model_name with
      | some v => (v, [ "MODEL_NAME" ])
      | none => (cfg.MODEL_NAME, [])
    (⟨urlStep.1, keyStep.1, nameStep.1⟩,
      Except.ok (keyStep.2 ++ urlStep.2 ++ nameStep.2))
  else
    (cfg, Except.error 403)

/-! Vision completions (main.py `create_vision_completion`). -/

/-- main.py content part union: `TextContent` or `ImageContent`. -/
inductive ContentPart
  | text (t : String)
  | image_url (url : String)
  deriving DecidableEq

/-- main.py `VisionMessage`. -/
structure VisionMessage where
  role : String
  content : List ContentPart
  deriving DecidableEq

/-- main.py `VisionCompletionRequest`. -/
structure VisionCompletionRequest where
  messages : List VisionMessage
  model : Option String
  temperature : Rat
  max_tokens : Nat
  deriving DecidableEq

/-- The part-rebuilding loop of main.py lines 180-188: a text part is
rebuilt as a text dict and an image part as an image_url dict (an
identity on this representation). -/
def convertVisionMessage (m : VisionMessage) : VisionMessage :=
  ⟨m.role, m.content.map fun p =>
    match p with
    | ContentPart.text t => ContentPart.text t
    | ContentPart.image_url u => ContentPart.image_url u⟩

/-- main.py `create_vision_completion` lines 177-199: rebuilds the
messages, then awaits the same `chat_completion` used for chat — with
its retry loop — passing no tools and no tool_choice and leaving
`stream` at its default `False`. -/
def create_vision_completion {β : Type} (cfgAt : Nat → Config)
    (req : VisionCompletionRequest) (upstream : Nat → UpstreamResponse β) :
    ChatTrace VisionMessage Unit β :=
  chat_completion cfgAt (req.messages.map convertVisionMessage) req.model
    req.temperature req.max_tokens false none none upstream

/-! Audio transcription (inference.py `audio_transcription`, main.py
`create_audio_transcription_base64`) and the Python base64 decoder. -/

/-- inference.py `STT_MODEL`. -/
def STT_MODEL : String := "whisper-small-v3-turbo"

/-- The multipart request inference.py `audio_transcription` sends:
URL, headers (only `Authorization`, and only for a truthy key), the
form fields (`language` is added only under `if language:`), and the
file part. -/
structure SentTranscription where
  url : String
  headers : List (String × String)
  model : String
  response_format : String
  language : Option String
  filename : String
  audio_data : List Nat
  deriving DecidableEq

/-- inference.py `audio_transcription` lines 113-149: builds the
multipart request, posts it once (no retry), and either returns the
decoded JSON body (2xx) or raises via `raise_for_status`. -/
def audio_transcription {β : Type} (cfg : Config) (audio_data : List Nat)
    (filename : String) (model : Option String) (language : Option String)
    (response_format : String) (resp : UpstreamResponse β) :
    SentTranscription × Except Nat β :=
  let sent : SentTranscription :=
    ⟨cfg.LLM_BACKEND_URL ++ "/audio/transcriptions",
      (if cfg.LLM_API_KEY = "" then []
        else [ ("Authorization", "Bearer " ++ cfg.LLM_API_KEY) ]),
      pyStrOr model STT_MODEL, response_format, pyOptStr language,
      filename, audio_data⟩
  if is_success resp.status_code then (sent, Except.ok resp.body)
  else (sent, Except.error resp.status_code)

/-- Value of one base64 alphabet character, `none` for everything
else (including the pad character). -/
def b64Val (c : Char) : Option Nat :=
  if 'A' ≤ c ∧ c ≤ 'Z' then some (c.toNat - 65)
  else if 'a' ≤ c ∧ c ≤ 'z' then some (c.toNat - 97 + 26)
  else if '0' ≤ c ∧ c ≤ '9' then some (c.toNat - 48 + 52)
  else if c = '+' then some 62
  else if c = '/' then some 63
  else none

/-- CPython `binascii.a2b_base64` with `strict_mode=False` (what
`base64.b64decode` calls): characters outside the alphabet are silently
skipped; a pad is counted only once a quad has at least two data
characters, and decoding stops successfully when the quad plus its pads
reaches four; a leftover quad at end of input is an error (a lone
leftover character and insufficient padding give distinct messages).
State: remaining input, quad position (0-3), the pending bits, the pad
count, and the output bytes accumulated in reverse. -/
def a2bBase64 : List Char → Nat → Nat → Nat → List Nat →
    Except String (List Nat)
  | [], quad_pos, _, _, out =>
    if quad_pos = 0 then Except.ok out.reverse
    else if quad_pos = 1 then
      Except.error "Invalid base64-encoded string: number of data characters cannot be 1 more than a multiple of 4"
    else Except.error "Incorrect padding"
  | c :: rest, quad_pos, leftchar, pads, out =>
    if c = '=' then
      if 2 ≤ quad_pos ∧ 4 ≤ quad_pos + (pads + 1) then Except.ok out.reverse
      else if 2 ≤ quad_pos then a2bBase64 rest quad_pos leftchar (pads + 1) out
      else a2bBase64 rest quad_pos leftchar pads out
    else
      match b64Val c with
      | none => a2bBase64 rest quad_pos leftchar pads out
      | some v =>
        match quad_pos with
        | 0 => a2bBase64 rest 1 v 0 out
        | 1 => a2bBase64 rest 2 (v % 16) 0 ((leftchar * 4 + v / 16) :: out)
        | 2 => a2bBase64 rest 3 (v % 4) 0 ((leftchar * 16 + v / 4) :: out)
        | _ => a2bBase64 rest 0 0 0 ((leftchar * 64 + v) :: out)

/-- Python `base64.b64decode` on a `str`: encodes to ASCII (raising for
any non-ASCII character) and decodes non-strictly. -/
def b64decode (s : String) : Except String (List Nat) :=
  if s.toList.all (fun c => c.toNat < 128) then
    a2bBase64 s.toList 0 0 0 []
  else
    Except.error "string argument should contain only ASCII characters"

/-- main.py `Base64TranscriptionRequest`. -/
structure Base64TranscriptionRequest where
  audio_data : String
  filename : String
  model : Option String
  language : Option String
  deriving DecidableEq

/-- What the base64 transcription endpoint did: the upstream request it
sent (`none` when no upstream call was attempted) and the HTTP outcome
for the caller, where `Except.error s` is an `HTTPException` with status
`s`. -/
structure TranscriptionTrace (β : Type) where
  upstream_sent : Option SentTranscription
  response : Except Nat β
  deriving DecidableEq

/-- main.py `create_audio_transcription_base64` lines 237-254: one
`try` block first decodes the base64 payload and then awaits
`audio_transcription`; every exception from either step — decode
failure or upstream error alike — is caught by the single `except` and
re-raised as the same `HTTPException(502, "Transcription error: ...")`. -/
def create_audio_transcription_base64 {β : Type} (cfg : Config)
    (req : Base64TranscriptionRequest) (resp : UpstreamResponse β) :
    TranscriptionTrace β :=
  match b64decode req.audio_data with
  | Except.error _ => ⟨none, Except.error 502⟩
  | Except.ok audio_bytes =>
    match audio_transcription cfg audio_bytes req.filename req.model
        req.language "json" resp with
    | (sent, Except.ok b) => ⟨some sent, Except.ok b⟩
    | (sent, Except.error _) => ⟨some sent, Except.error 502⟩

/-! Helper lemmas about the retry loop. -/

/-- The loop makes at most `fuel` attempts. -/
theorem chatCompletionAux_length_le {μ τ β : Type} (cfgAt : Nat → Config)
    (p : ChatPayload μ τ) (upstream : Nat → UpstreamResponse β) :
    ∀ fuel attempt,
      (chatCompletionAux cfgAt p upstream attempt fuel).sent.length ≤ fuel := by
  intro fuel
  induction fuel with
  | zero => intro attempt; simp [chatCompletionAux]
  | succ n ih =>
    intro attempt
    simp only [chatCompletionAux]
    split_ifs with h1 h2
    · simpa using Nat.succ_le_succ (ih (attempt + 1))
    · simp
    · simp

/-- A further attempt is made only after a 400: whenever attempt `i` is
not the last request sent, the response to attempt `i` had status 400. -/
theorem chatCompletionAux_retry_only_400 {μ τ β : Type} (cfgAt : Nat → Config)
    (p : ChatPayload μ τ) (upstream : Nat → UpstreamResponse β) :
    ∀ fuel attempt i,
      i + 1 < (chatCompletionAux cfgAt p upstream attempt fuel).sent.length →
      (upstream (attempt + i)).status_code = 400 := by
  intro fuel
  induction fuel with
  | zero => intro attempt i h; simp [chatCompletionAux] at h
  | succ n ih =>
    intro attempt i h
    simp only [chatCompletionAux] at h
    split_ifs at h with h1 h2
    · rcases i with _ | j
      · simpa using h1.1
      · have hj : j + 1 <
            (chatCompletionAux cfgAt p upstream (attempt + 1) n).sent.length := by
          simp at h
          omega
        have e : attempt + (j + 1) = attempt + 1 + j := by omega
        rw [e]
        exact ih (attempt + 1) j hj
    · simp at h
    · simp at h

/-- The requests sent by the loop, characterized: some number `L` of
requests go out, and the request of attempt `i` is built from the config
state read at attempt `i` (`cfgAt (attempt + i)`), all carrying the same
payload `p`. -/
theorem chatCompletionAux_sent_spec {μ τ β : Type} (cfgAt : Nat → Config)
    (p : ChatPayload μ τ) (upstream : Nat → UpstreamResponse β) :
    ∀ fuel attempt, ∃ L, L ≤ fuel ∧
      (chatCompletionAux cfgAt p upstream attempt fuel).sent =
        (List.range L).map (fun i => mkChatRequest (cfgAt (attempt + i)) p) := by
  intro fuel
  induction fuel with
  | zero => intro attempt; exact ⟨0, Nat.le_refl 0, by simp [chatCompletionAux]⟩
  | succ n ih =>
    intro attempt
    simp only [chatCompletionAux]
    split_ifs with h1 h2
    · obtain ⟨L, hL, hsent⟩ := ih (attempt + 1)
      refine ⟨L + 1, by omega, ?_⟩
      simp only [hsent, List.range_succ_eq_map, List.map_cons, List.map_map]
      have e : (fun i => mkChatRequest (cfgAt (attempt + 1 + i)) p) =
          (mkChatRequest · p) ∘ cfgAt ∘ (fun i => attempt + (i + 1)) := by
        funext i
        have e2 : attempt + 1 + i = attempt + (i + 1) := by omega
        simp [Function.comp, e2]
      simp [e, Function.comp]
    · exact ⟨1, by omega, by simp [List.range_succ]⟩
    · exact ⟨1, by omega, by simp [List.range_succ]⟩

/-- C1: a non-streaming chat completion that gets upstream 400 on
attempts 1 and 2 and a 2xx on attempt 3 returns the decoded body of the
attempt-3 response to the caller; the same constructed payload is sent
on all three attempts with no mutation between them; and exactly two
backoff sleeps happen, of 0.5 s and then 1.0 s. -/
theorem chat_retry_recovers_on_third_attempt {μ τ β : Type} (cfg : Config)
    (messages : List μ) (model : Option String) (temperature : Rat)
    (max_tokens : Nat) (tools : Option (List τ)) (tool_choice : Option String)
    (upstream : Nat → UpstreamResponse β)
    (h0 : (upstream 0).status_code = 400)
    (h1 : (upstream 1).status_code = 400)
    (h2 : is_success (upstream 2).status_code = true) :
    (chat_completion (fun _ => cfg) messages model temperature max_tokens
        false tools tool_choice upstream).result = Except.ok (upstream 2).body
    ∧ (chat_completion (fun _ => cfg) messages model temperature max_tokens
        false tools tool_choice upstream).sleeps = [ (1 : Rat) / 2, 1 ]
    ∧ (chat_completion (fun _ => cfg) messages model temperature max_tokens
        false tools tool_choice upstream).sent.map SentRequest.payload =
      [ buildChatPayload cfg messages model temperature max_tokens false
          tools tool_choice,
        buildChatPayload cfg messages model temperature max_tokens false
          tools tool_choice,
        buildChatPayload cfg messages model temperature max_tokens false
          tools tool_choice ] := by
  refine ⟨?_, ?_, ?_⟩
  · simp [chat_completion, chatCompletionAux, h0, h1, h2, max_retries]
  · simp [chat_completion, chatCompletionAux, h0, h1, h2, max_retries, backoff]
    norm_num
  · simp [chat_completion, chatCompletionAux, h0, h1, h2, max_retries,
      mkChatRequest]

/-- Witness for C1 at concrete inputs: two 400s then a 200. -/
theorem chat_retry_recovers_on_third_attempt_witness :
    (chat_completion (fun _ => Config.mk "http://u" "key" "default-model")
        ([] : List Unit) none 1 10 false (none : Option (List Unit)) none
        (fun i => if i < 2 then ⟨400, "err"⟩ else ⟨200, "ok"⟩)).result =
      Except.ok "ok"
    ∧ (chat_completion (fun _ => Config.mk "http://u" "key" "default-model")
        ([] : List Unit) none 1 10 false (none : Option (List Unit)) none
        (fun i => if i < 2 then ⟨400, "err"⟩ else ⟨200, "ok"⟩)).sleeps =
      [ (1 : Rat) / 2, 1 ] := by
  have h := chat_retry_recovers_on_third_attempt
    (Config.mk "http://u" "key" "default-model") ([] : List Unit) none 1 10
    (none : Option (List Unit)) none
    (fun i => if i < 2 then ⟨400, "err"⟩ else ⟨200, "ok"⟩)
    (by decide) (by decide) (by decide)
  exact ⟨h.1, h.2.1⟩

/-- C2: only status 400 triggers a retry and at most three attempts are
made; 400 on all three attempts surfaces as a failure (the raised status
error, not a 2xx body); any other non-2xx status on the first attempt
(e.g. 500) fails immediately after one attempt with no retry and no
backoff sleep. -/
theorem chat_retry_policy_only_400 {μ τ β : Type} (cfgAt : Nat → Config)
    (messages : List μ) (model : Option String) (temperature : Rat)
    (max_tokens : Nat) (stream : Bool) (tools : Option (List τ))
    (tool_choice : Option String) (upstream : Nat → UpstreamResponse β) :
    (chat_completion cfgAt messages model temperature max_tokens stream
        tools tool_choice upstream).sent.length ≤ 3
    ∧ (∀ i, i + 1 < (chat_completion cfgAt messages model temperature
        max_tokens stream tools tool_choice upstream).sent.length →
        (upstream i).status_code = 400)
    ∧ ((∀ i, i < 3 → (upstream i).status_code = 400) →
        (chat_completion cfgAt messages model temperature max_tokens stream
          tools tool_choice upstream).result = Except.error 400
        ∧ (chat_completion cfgAt messages model temperature max_tokens stream
          tools tool_choice upstream).sent.length = 3)
    ∧ ((upstream 0).status_code ≠ 400 →
        is_success (upstream 0).status_code = false →
        (chat_completion cfgAt messages model temperature max_tokens stream
          tools tool_choice upstream).result =
            Except.error (upstream 0).status_code
        ∧ (chat_completion cfgAt messages model temperature max_tokens stream
          tools tool_choice upstream).sent.length = 1
        ∧ (chat_completion cfgAt messages model temperature max_tokens stream
          tools tool_choice upstream).sleeps = []) := by
  refine ⟨?_, ?_, ?_, ?_⟩
  · exact chatCompletionAux_length_le cfgAt _ upstream 3 0
  · intro i hi
    have h := chatCompletionAux_retry_only_400 cfgAt _ upstream 3 0 i hi
    simpa using h
  · intro h400
    have h0 := h400 0 (by omega)
    have h1 := h400 1 (by omega)
    have h2 := h400 2 (by omega)
    constructor
    · simp [chat_completion, chatCompletionAux, h0, h1, h2, max_retries,
        is_success]
    · simp [chat_completion, chatCompletionAux, h0, h1, h2, max_retries,
        is_success]
  · intro hne hns
    refine ⟨?_, ?_, ?_⟩ <;>
      simp [chat_completion, chatCompletionAux, hne, hns, max_retries]

/-- Witness for C2 at concrete inputs: a 500 on the first attempt. -/
theorem chat_retry_policy_only_400_witness :
    (chat_completion (fun _ => Config.mk "http://u" "key" "default-model")
        ([] : List Unit) none 1 10 false (none : Option (List Unit)) none
        (fun _ => (⟨500, "boom"⟩ : UpstreamResponse String))).result =
      Except.error 500
    ∧ (chat_completion (fun _ => Config.mk "http://u" "key" "default-model")
        ([] : List Unit) none 1 10 false (none : Option (List Unit)) none
        (fun _ => (⟨500, "boom"⟩ : UpstreamResponse String))).sent.length = 1
    ∧ (chat_completion (fun _ => Config.mk "http://u" "key" "default-model")
        ([] : List Unit) none 1 10 false (none : Option (List Unit)) none
        (fun _ => (⟨500, "boom"⟩ : UpstreamResponse String))).sleeps = [] := by
  have h := chat_retry_policy_only_400
    (fun _ => Config.mk "http://u" "key" "default-model") ([] : List Unit)
    none 1 10 false (none : Option (List Unit)) none
    (fun _ => (⟨500, "boom"⟩ : UpstreamResponse String))
  exact h.2.2.2 (by decide) (by decide)

/-- C3: for a streaming completion where the upstream answers 2xx and
then closes normally, the delivered event sequence is exactly, in
upstream line order, one `data: <r>` event for the remainder `r` of each
upstream line starting with the literal prefix `data: ` (prefix
stripped), followed by one synthetic terminal `data: [DONE]` event;
non-matching lines are discarded without error and the stream completes
normally. -/
theorem stream_clean_close_translation {μ τ : Type} (cfg : Config)
    (messages : List μ) (model : Option String) (temperature : Rat)
    (max_tokens : Nat) (src : StreamSource)
    (hs : is_success src.status_code = true)
    (hc : src.clean_close = true) :
    (stream_response (stream_chat_completion (τ := τ) cfg messages model
        temperature max_tokens src)).events =
      (src.lines.filterMap stripData ++ [ "[DONE]" ]).map wrapEvent
    ∧ (stream_response (stream_chat_completion (τ := τ) cfg messages model
        temperature max_tokens src)).ok = true := by
  constructor
  · simp [stream_response, stream_chat_completion, hs, hc]
  · simp [stream_response, stream_chat_completion, hs, hc]

/-- Witness for C3: upstream lines `data: A`, `: comment`, `data: B`
with a clean close yield exactly the events for `A`, `B`, `[DONE]`. -/
theorem stream_clean_close_translation_witness :
    (stream_response (stream_chat_completion (μ := Unit) (τ := Unit)
        (Config.mk "http://u" "key" "default-model") [] none 1 10
        ⟨200, [ "data: A", ": comment", "data: B" ], true⟩)).events =
      [ "data: A\n\n", "data: B\n\n", "data: [DONE]\n\n" ]
    ∧ (stream_response (stream_chat_completion (μ := Unit) (τ := Unit)
        (Config.mk "http://u" "key" "default-model") [] none 1 10
        ⟨200, [ "data: A", ": comment", "data: B" ], true⟩)).ok = true := by
  have h := stream_clean_close_translation (μ := Unit) (τ := Unit)
    (Config.mk "http://u" "key" "default-model") [] none 1 10
    ⟨200, [ "data: A", ": comment", "data: B" ], true⟩ (by decide) (by decide)
  exact ⟨h.1.trans (by decide), h.2⟩

/-- C4: for a streaming completion where the connection errors
mid-stream after some data lines were received, the delivered events are
exactly those for the lines received before the error, with no terminal
`[DONE]` event appended, and the stream is reported as failed (the
generator raises instead of completing). -/
theorem stream_error_mid_stream {μ τ : Type} (cfg : Config)
    (messages : List μ) (model : Option String) (temperature : Rat)
    (max_tokens : Nat) (src : StreamSource)
    (hs : is_success src.status_code = true)
    (he : src.clean_close = false) :
    (stream_response (stream_chat_completion (τ := τ) cfg messages model
        temperature max_tokens src)).events =
      (src.lines.filterMap stripData).map wrapEvent
    ∧ (stream_response (stream_chat_completion (τ := τ) cfg messages model
        temperature max_tokens src)).ok = false := by
  constructor
  · simp [stream_response, stream_chat_completion, hs, he]
  · simp [stream_response, stream_chat_completion, hs, he]

/-- Witness for C4: a connection error after upstream emitted `data: A`
yields exactly the one event for `A` and a failed stream. -/
theorem stream_error_mid_stream_witness :
    (stream_response (stream_chat_completion (μ := Unit) (τ := Unit)
        (Config.mk "http://u" "key" "default-model") [] none 1 10
        ⟨200, [ "data: A" ], false⟩)).events = [ "data: A\n\n" ]
    ∧ (stream_response (stream_chat_completion (μ := Unit) (τ := Unit)
        (Config.mk "http://u" "key" "default-model") [] none 1 10
        ⟨200, [ "data: A" ], false⟩)).ok = false := by
  have h := stream_error_mid_stream (μ := Unit) (τ := Unit)
    (Config.mk "http://u" "key" "default-model") [] none 1 10
    ⟨200, [ "data: A" ], false⟩ (by decide) (by decide)
  exact ⟨h.1.trans (by decide), h.2⟩

/-- C5 counterexample: the claim fails on the code at three concrete
requests.  (a) A streaming request that contains a (non-empty) tools
list produces an upstream payload with no `tools` and no `tool_choice`
key at all — the streaming branch of `create_chat_completion` drops
them.  (b) A non-streaming request with the present model `""` gets the
configured default model, not the request's model.  (c) A non-streaming
request with tools and the present tool choice `""` gets `"auto"`, not
the given value. -/
theorem chat_payload_claim_counterexample :
    ((create_chat_completion_payload (Config.mk "http://u" "key"
        "default-model")
        (⟨ [ () ], some "m", 1, 10, true, some [ () ], none ⟩ :
          ChatCompletionRequest Unit Unit)).tools = none
      ∧ (create_chat_completion_payload (Config.mk "http://u" "key"
        "default-model")
        (⟨ [ () ], some "m", 1, 10, true, some [ () ], none ⟩ :
          ChatCompletionRequest Unit Unit)).tool_choice = none
      ∧ (some [ () ] : Option (List Unit)) ≠ none)
    ∧ ((create_chat_completion_payload (Config.mk "http://u" "key"
        "default-model")
        (⟨ [ () ], some "", 1, 10, false, none, none ⟩ :
          ChatCompletionRequest Unit Unit)).model = "default-model"
      ∧ "default-model" ≠ "")
    ∧ ((create_chat_completion_payload (Config.mk "http://u" "key"
        "default-model")
        (⟨ [ () ], none, 1, 10, false, some [ () ], some "" ⟩ :
          ChatCompletionRequest Unit Unit)).tool_choice = some "auto"
      ∧ "auto" ≠ "") := by
  refine ⟨⟨?_, ?_, ?_⟩, ⟨?_, ?_⟩, ⟨?_, ?_⟩⟩ <;> decide

/-- C5 as amended: for every gateway chat-completion request the
upstream payload's model equals the request's model when that is present
and non-empty, else the configured default; a non-streaming request gets
`tools` and `tool_choice` keys exactly when it carries at least one
tool, with `tool_choice` equal to the given value when that is present
and non-empty and `"auto"` otherwise; a streaming request never gets
`tools` or `tool_choice` keys (the streaming branch drops them). -/
theorem create_chat_completion_payload_spec {μ τ : Type} (cfg : Config)
    (req : ChatCompletionRequest μ τ) :
    ((req.model = none ∨ req.model = some "") →
      (create_chat_completion_payload cfg req).model = cfg.MODEL_NAME)
    ∧ (∀ m, req.model = some m → m ≠ "" →
      (create_chat_completion_payload cfg req).model = m)
    ∧ (req.stream = true →
      (create_chat_completion_payload cfg req).tools = none
      ∧ (create_chat_completion_payload cfg req).tool_choice = none)
    ∧ (req.stream = false → ∀ ts, req.tools = some ts → ts ≠ [] →
      (create_chat_completion_payload cfg req).tools = some ts
      ∧ (create_chat_completion_payload cfg req).tool_choice =
        some (pyStrOr req.tool_choice "auto"))
    ∧ (req.stream = false → (req.tools = none ∨ req.tools = some []) →
      (create_chat_completion_payload cfg req).tools = none
      ∧ (create_chat_completion_payload cfg req).tool_choice = none) := by
  refine ⟨?_, ?_, ?_, ?_, ?_⟩
  · rintro (hm | hm) <;>
      simp [create_chat_completion_payload, buildStreamPayload,
        buildChatPayload, mainTools, pyStrOr, pyListTruthy, hm] <;>
      split_ifs <;> simp [pyStrOr]
  · intro m hm hne
    simp only [create_chat_completion_payload]
    split_ifs with hs
    · simp [buildStreamPayload, pyStrOr, hm, hne]
    · simp only [buildChatPayload]
      split_ifs <;> simp [pyStrOr, hm, hne]
  · intro hs
    simp [create_chat_completion_payload, hs, buildStreamPayload]
  · intro hs ts hts hne
    have ht : pyListTruthy (some ts) = true := by
      simp [pyListTruthy, List.isEmpty_iff, hne]
    simp [create_chat_completion_payload, hs, buildChatPayload, mainTools,
      ht, hts]
  · intro hs hts
    have ht : pyListTruthy req.tools = false := by
      rcases hts with h | h <;> simp [pyListTruthy, h]
    have hn : pyListTruthy (none : Option (List τ)) = false := rfl
    simp [create_chat_completion_payload, hs, buildChatPayload, mainTools,
      ht, hn]

/-- Witness for C5 (amended) at a concrete non-streaming request with
one tool and no explicit model or tool choice. -/
theorem create_chat_completion_payload_spec_witness :
    (create_chat_completion_payload (Config.mk "http://u" "key"
        "default-model")
      (⟨ [ () ], none, 1, 10, false, some [ () ], none ⟩ :
        ChatCompletionRequest Unit Unit)).model = "default-model"
    ∧ (create_chat_completion_payload (Config.mk "http://u" "key"
        "default-model")
      (⟨ [ () ], none, 1, 10, false, some [ () ], none ⟩ :
        ChatCompletionRequest Unit Unit)).tools = some [ () ]
    ∧ (create_chat_completion_payload (Config.mk "http://u" "key"
        "default-model")
      (⟨ [ () ], none, 1, 10, false, some [ () ], none ⟩ :
        ChatCompletionRequest Unit Unit)).tool_choice = some "auto" := by
  have h := create_chat_completion_payload_spec
    (Config.mk "http://u" "key" "default-model")
    (⟨ [ () ], none, 1, 10, false, some [ () ], none ⟩ :
      ChatCompletionRequest Unit Unit)
  refine ⟨h.1 (Or.inl rfl), ?_, ?_⟩
  · exact (h.2.2.2.1 rfl [ () ] rfl (by decide)).1
  · exact ((h.2.2.2.1 rfl [ () ] rfl (by decide)).2).trans (by decide)

/-- C6: a reconfiguration call whose origin is none of the accepted
loopback designators — in particular any non-loopback origin — fails
with HTTP 403, leaves every field of the configuration unchanged, and
the outcome does not depend on the request body (the origin check runs
before the payload is inspected). -/
theorem update_config_non_loopback_denied (h : Option String)
    (b1 b2 : InternalConfigUpdate) (cfg : Config)
    (h1 : h ≠ some "127.0.0.1") (h2 : h ≠ some "::1")
    (h3 : h ≠ some "localhost") :
    update_config h b1 cfg = (cfg, Except.error 403)
    ∧ update_config h b1 cfg = update_config h b2 cfg := by
  have hl : ¬ loopbackAllowed h := by
    simp [loopbackAllowed, h1, h2, h3]
  constructor
  · simp [update_config, hl]
  · simp [update_config, hl]

/-- Witness for C6 at a concrete non-loopback origin. -/
theorem update_config_non_loopback_denied_witness :
    update_config (some "10.0.0.1") ⟨some "x", none, none⟩
        (Config.mk "http://u" "key" "default-model") =
      ((Config.mk "http://u" "key" "default-model"), Except.error 403)
    ∧ update_config (some "10.0.0.1") ⟨some "x", none, none⟩
        (Config.mk "http://u" "key" "default-model") =
      update_config (some "10.0.0.1") ⟨none, some "y", some "z"⟩
        (Config.mk "http://u" "key" "default-model") := by
  exact update_config_non_loopback_denied (some "10.0.0.1")
    ⟨some "x", none, none⟩ ⟨none, some "y", some "z"⟩
    (Config.mk "http://u" "key" "default-model")
    (by decide) (by decide) (by decide)

/-- C7: a loopback reconfiguration overwrites exactly the provided
fields, leaves every absent field untouched, and returns exactly the
names of the fields it overwrote (so providing only the API key updates
only the API key). -/
theorem update_config_loopback_updates (h : Option String)
    (body : InternalConfigUpdate) (cfg : Config)
    (hl : loopbackAllowed h) :
    (∀ v, body.llm_api_key = some v →
      (update_config h body cfg).1.LLM_API_KEY = v)
    ∧ (body.llm_api_key = none →
      (update_config h body cfg).1.LLM_API_KEY = cfg.LLM_API_KEY)
    ∧ (∀ v, body.llm_backend_url = some v →
      (update_config h body cfg).1.LLM_BACKEND_URL = v)
    ∧ (body.llm_backend_url = none →
      (update_config h body cfg).1.LLM_BACKEND_URL = cfg.LLM_BACKEND_URL)
    ∧ (∀ v, body.model_name = some v →
      (update_config h body cfg).1.MODEL_NAME = v)
    ∧ (body.model_name = none →
      (update_config h body cfg).1.MODEL_NAME = cfg.MODEL_NAME)
    ∧ (update_config h body cfg).2 = Except.ok
      ((if body.llm_api_key.isSome then [ "LLM_API_KEY" ] else []) ++
       (if body.llm_backend_url.isSome then [ "LLM_BACKEND_URL" ] else []) ++
       (if body.model_name.isSome then [ "MODEL_NAME" ] else [])) := by
  rcases body with ⟨k, u, n⟩
  cases k <;> cases u <;> cases n <;>
    simp [update_config, hl]

/-- Witness for C7: providing only the API key from a loopback origin
updates only the API key and reports exactly that field. -/
theorem update_config_loopback_updates_witness :
    (update_config (some "127.0.0.1") ⟨some "x", none, none⟩
        (Config.mk "http://u" "key" "default-model")).1.LLM_API_KEY = "x"
    ∧ (update_config (some "127.0.0.1") ⟨some "x", none, none⟩
        (Config.mk "http://u" "key" "default-model")).1.LLM_BACKEND_URL =
      "http://u"
    ∧ (update_config (some "127.0.0.1") ⟨some "x", none, none⟩
        (Config.mk "http://u" "key" "default-model")).1.MODEL_NAME =
      "default-model"
    ∧ (update_config (some "127.0.0.1") ⟨some "x", none, none⟩
        (Config.mk "http://u" "key" "default-model")).2 =
      Except.ok [ "LLM_API_KEY" ] := by
  have h := update_config_loopback_updates (some "127.0.0.1")
    ⟨some "x", none, none⟩ (Config.mk "http://u" "key" "default-model")
    (Or.inl rfl)
  exact ⟨h.1 "x" rfl, h.2.2.2.1 rfl, h.2.2.2.2.2.1 rfl,
    h.2.2.2.2.2.2.trans (by decide)⟩

/-- Initial configuration for the C8 scenario. -/
def cfg0 : Config := ⟨ "http://old", "key-old", "model-a" ⟩

/-- The loopback reconfiguration performed while the C8 call is in
flight: new API key and new base URL. -/
def reconfBody : InternalConfigUpdate := ⟨ some "key-new", some "http://new", none ⟩

/-- Config-module state seen by each attempt in the C8 scenario: the
reconfiguration lands during the first backoff sleep, so attempt 0 reads
the old state and attempts 1 and 2 read the state produced by the
loopback `update_config` call. -/
def cfgAtReconf : Nat → Config :=
  fun i => if i = 0 then cfg0
    else (update_config (some "127.0.0.1") reconfBody cfg0).1

/-- C8 counterexample: the claim fails on the code.  `chat_completion`
re-reads `config.LLM_BACKEND_URL` and recomputes `_headers()` inside the
retry loop on every attempt, so a reconfiguration that lands between
attempts makes one single call mix old and new values: with upstream
returning 400 on every attempt, the three requests of one call go to the
old URL with the old key and then to the new URL with the new key. -/
theorem chat_config_snapshot_counterexample :
    (chat_completion cfgAtReconf ([] : List Unit) none 1 10 false
        (none : Option (List Unit)) none
        (fun _ => (⟨400, (0 : Nat)⟩ : UpstreamResponse Nat))).sent.map
      SentRequest.url =
      [ "http://old/chat/completions", "http://new/chat/completions",
        "http://new/chat/completions" ]
    ∧ (chat_completion cfgAtReconf ([] : List Unit) none 1 10 false
        (none : Option (List Unit)) none
        (fun _ => (⟨400, (0 : Nat)⟩ : UpstreamResponse Nat))).sent.map
      SentRequest.headers =
      [ [ ("Content-Type", "application/json"),
          ("Authorization", "Bearer key-old") ],
        [ ("Content-Type", "application/json"),
          ("Authorization", "Bearer key-new") ],
        [ ("Content-Type", "application/json"),
          ("Authorization", "Bearer key-new") ] ]
    ∧ "http://old/chat/completions" ≠ "http://new/chat/completions" := by
  refine ⟨?_, ?_, ?_⟩ <;> decide

/-- C8 as amended: within one retried chat completion the base URL and
the API-key headers are re-read from the configuration state at every
attempt — request `i` is built from `cfgAt i` — while the payload (and
with it the default model) is built once from the state at call start;
so a reconfiguration landing between attempts makes later attempts of
the same call use the new values, and only a call that finishes on its
first attempt is guaranteed a single consistent snapshot. -/
theorem chat_completion_config_read_per_attempt {μ τ β : Type}
    (cfgAt : Nat → Config) (messages : List μ) (model : Option String)
    (temperature : Rat) (max_tokens : Nat) (stream : Bool)
    (tools : Option (List τ)) (tool_choice : Option String)
    (upstream : Nat → UpstreamResponse β) :
    ∃ L, L ≤ 3 ∧
      (chat_completion cfgAt messages model temperature max_tokens stream
          tools tool_choice upstream).sent =
        (List.range L).map (fun i => mkChatRequest (cfgAt i)
          (buildChatPayload (cfgAt 0) messages model temperature max_tokens
            stream tools tool_choice)) := by
  obtain ⟨L, hL, hsent⟩ := chatCompletionAux_sent_spec cfgAt
    (buildChatPayload (cfgAt 0) messages model temperature max_tokens stream
      tools tool_choice) upstream 3 0
  refine ⟨L, hL, ?_⟩
  simpa using hsent

/-- Witness for C8 (amended) at the concrete reconfiguration scenario. -/
theorem chat_completion_config_read_per_attempt_witness :
    ∃ L, L ≤ 3 ∧
      (chat_completion cfgAtReconf ([] : List Unit) none 1 10 false
          (none : Option (List Unit)) none
          (fun _ => (⟨400, (0 : Nat)⟩ : UpstreamResponse Nat))).sent =
        (List.range L).map (fun i => mkChatRequest (cfgAtReconf i)
          (buildChatPayload (cfgAtReconf 0) ([] : List Unit) none 1 10 false
            (none : Option (List Unit)) none)) := by
  exact chat_completion_config_read_per_attempt cfgAtReconf [] none 1 10
    false none none (fun _ => (⟨400, (0 : Nat)⟩ : UpstreamResponse Nat))

/-- C9 counterexample: the claim fails on the code at concrete inputs.
The input `"x"` makes the base64 decode raise; the handler's single
`except` turns this into the same `HTTPException(502)` transcription
error produced for an upstream failure on well-formed input (`"aGk="`
with upstream 500) — there is no distinct client-input error kind.  And
the input `"!!!!"` is not valid base64 yet does not fail at all: the
lenient decoder drops the invalid characters and the request is
forwarded upstream. -/
theorem base64_error_kind_counterexample :
    (create_audio_transcription_base64 (Config.mk "http://u" "key"
        "default-model") ⟨ "x", "a.ogg", none, none ⟩
      (⟨200, (0 : Nat)⟩ : UpstreamResponse Nat)).upstream_sent = none
    ∧ (create_audio_transcription_base64 (Config.mk "http://u" "key"
        "default-model") ⟨ "x", "a.ogg", none, none ⟩
      (⟨200, (0 : Nat)⟩ : UpstreamResponse Nat)).response = Except.error 502
    ∧ (create_audio_transcription_base64 (Config.mk "http://u" "key"
        "default-model") ⟨ "aGk=", "a.ogg", none, none ⟩
      (⟨500, (0 : Nat)⟩ : UpstreamResponse Nat)).response = Except.error 502
    ∧ (create_audio_transcription_base64 (Config.mk "http://u" "key"
        "default-model") ⟨ "!!!!", "a.ogg", none, none ⟩
      (⟨200, (7 : Nat)⟩ : UpstreamResponse Nat)).upstream_sent.isSome = true
    ∧ (create_audio_transcription_base64 (Config.mk "http://u" "key"
        "default-model") ⟨ "!!!!", "a.ogg", none, none ⟩
      (⟨200, (7 : Nat)⟩ : UpstreamResponse Nat)).response = Except.ok 7 := by
  refine ⟨?_, ?_, ?_, ?_, ?_⟩ <;> decide

/-- C9 as amended: a base64 transcription request whose audio data makes
the (lenient) base64 decode raise fails before any upstream request is
attempted, but with the same generic HTTP 502 transcription error that
wraps upstream failures — not with an error kind distinct from the
upstream-error kind. -/
theorem base64_decode_failure_no_upstream {β : Type} (cfg : Config)
    (req : Base64TranscriptionRequest) (resp : UpstreamResponse β)
    (e : String) (hd : b64decode req.audio_data = Except.error e) :
    create_audio_transcription_base64 cfg req resp =
      ⟨none, Except.error 502⟩ := by
  simp [create_audio_transcription_base64, hd]

/-- Witness for C9 (amended) at the concrete malformed input `"x"`. -/
theorem base64_decode_failure_no_upstream_witness :
    create_audio_transcription_base64 (Config.mk "http://u" "key"
        "default-model") ⟨ "x", "a.ogg", none, none ⟩
      (⟨200, (0 : Nat)⟩ : UpstreamResponse Nat) =
      ⟨none, Except.error 502⟩ := by
  exact base64_decode_failure_no_upstream
    (Config.mk "http://u" "key" "default-model")
    ⟨ "x", "a.ogg", none, none ⟩ (⟨200, (0 : Nat)⟩ : UpstreamResponse Nat)
    "Invalid base64-encoded string: number of data characters cannot be 1 more than a multiple of 4"
    (by decide)

/-- Sample vision request used by the C10 theorems. -/
def visionReqW : VisionCompletionRequest :=
  ⟨ [ ⟨ "user", [ ContentPart.text "hi" ] ⟩ ], none, 1, 10 ⟩

/-- C10 counterexample: the claim fails on the code.  The vision
endpoint awaits the same `chat_completion` used for chat, so an upstream
400 does not make a vision call fail after a single attempt: with 400 on
every attempt, three requests are sent and two backoff sleeps (0.5 s,
1.0 s) occur before the failure surfaces. -/
theorem vision_retry_counterexample :
    (create_vision_completion (fun _ => Config.mk "http://u" "key"
        "default-model") visionReqW
      (fun _ => (⟨400, (0 : Nat)⟩ : UpstreamResponse Nat))).sent.length = 3
    ∧ (create_vision_completion (fun _ => Config.mk "http://u" "key"
        "default-model") visionReqW
      (fun _ => (⟨400, (0 : Nat)⟩ : UpstreamResponse Nat))).sleeps =
      [ (1 : Rat) / 2, 1 ]
    ∧ (create_vision_completion (fun _ => Config.mk "http://u" "key"
        "default-model") visionReqW
      (fun _ => (⟨400, (0 : Nat)⟩ : UpstreamResponse Nat))).result =
      Except.error 400 := by
  refine ⟨by decide, ?_, by decide⟩
  simp [create_vision_completion, chat_completion, chatCompletionAux,
    max_retries, backoff, visionReqW, is_success]
  norm_num

/-- C10 as amended: the chat-completion 400-retry policy does apply to
vision completions — upstream 400 on the first two attempts leads to a
third attempt after backoff sleeps of 0.5 s and 1.0 s, a 2xx on the
third attempt is returned to the caller, and a 400 on the third attempt
surfaces as the failure.  (Only the streaming path is never applied to
vision.) -/
theorem vision_applies_chat_retry {β : Type} (cfgAt : Nat → Config)
    (req : VisionCompletionRequest) (upstream : Nat → UpstreamResponse β)
    (h0 : (upstream 0).status_code = 400)
    (h1 : (upstream 1).status_code = 400) :
    (create_vision_completion cfgAt req upstream).sent.length = 3
    ∧ (create_vision_completion cfgAt req upstream).sleeps =
      [ (1 : Rat) / 2, 1 ]
    ∧ (is_success (upstream 2).status_code = true →
      (create_vision_completion cfgAt req upstream).result =
        Except.ok (upstream 2).body)
    ∧ ((upstream 2).status_code = 400 →
      (create_vision_completion cfgAt req upstream).result =
        Except.error 400) := by
  refine ⟨?_, ?_, ?_, ?_⟩
  · by_cases h2 : 200 ≤ (upstream 2).status_code ∧
        (upstream 2).status_code < 300 <;>
      simp [create_vision_completion, chat_completion, chatCompletionAux,
        max_retries, is_success, h0, h1, h2]
  · by_cases h2 : 200 ≤ (upstream 2).status_code ∧
        (upstream 2).status_code < 300 <;>
      · simp [create_vision_completion, chat_completion, chatCompletionAux,
          max_retries, backoff, is_success, h0, h1, h2]
        norm_num
  · intro h2
    simp [create_vision_completion, chat_completion, chatCompletionAux,
      max_retries, h0, h1, h2]
  · intro h2
    simp [create_vision_completion, chat_completion, chatCompletionAux,
      max_retries, is_success, h0, h1, h2]

/-- Witness for C10 (amended): 400, 400, then 200 on a vision call. -/
theorem vision_applies_chat_retry_witness :
    (create_vision_completion (fun _ => Config.mk "http://u" "key"
        "default-model") visionReqW
      (fun i => if i < 2 then (⟨400, "err"⟩ : UpstreamResponse String)
        else ⟨200, "ok"⟩)).sent.length = 3
    ∧ (create_vision_completion (fun _ => Config.mk "http://u" "key"
        "default-model") visionReqW
      (fun i => if i < 2 then (⟨400, "err"⟩ : UpstreamResponse String)
        else ⟨200, "ok"⟩)).result = Except.ok "ok" := by
  have h := vision_applies_chat_retry
    (fun _ => Config.mk "http://u" "key" "default-model") visionReqW
    (fun i => if i < 2 then (⟨400, "err"⟩ : UpstreamResponse String)
      else ⟨200, "ok"⟩) (by decide) (by decide)
  exact ⟨h.1, h.2.2.1 (by decide)⟩

end Bridge
